import Mathlib

/-!
Shallow embedding of the Billa weekly-brochure product extraction engine
(`billa_scraper.py`, class `BillaScraper`), restricted to its pure extraction
core: `extract_products`, `clean_product_name`, `is_non_product` and
`extract_prices_from_container`.

Modelling conventions.  Python strings are lists of code points.  Python
`float` values are exact rationals (every price on the page is a short
decimal literal), and a raised `ValueError` is an `Except.error` carrying the
offending text.  The parsed markup tree is represented by its event stream in
document order (element opening, element close, text node); an element is
handled through the slice of events between its opening and its matching
close, which makes every BeautifulSoup query a structural scan.  Each
`datetime.now()` reading is drawn from an explicit clock stream `ts` passed
to the engine, and each `print` diagnostic is returned in an explicit log
list.  Regular expressions are translated matcher by matcher; for every
pattern the scraper uses, greedy matching coincides with maximal munch, which
is what the matchers below implement.
-/

/-- Characters of a Python string; Python `len` counts code points, as does
`List.length` here. -/
abbrev Str := List Char

/-- Python regex class `\s`, restricted to the ASCII whitespace characters
that occur in the scraped markup. -/
def pyWS (c : Char) : Bool :=
  c == ' ' || c == '\t' || c == '\n' || c == '\r' || c == '\x0b' || c == '\x0c'

/-- Python regex class `\d`, restricted to the ASCII digits the page uses. -/
def pyDigit (c : Char) : Bool := '0' ≤ c && c ≤ '9'

/-- Python `str.lower`, on the alphabets the scraper meets: ASCII letters and
the Cyrillic range А-Я plus Ё. -/
def lowerChar (c : Char) : Char :=
  if 'A' ≤ c && c ≤ 'Z' then Char.ofNat (c.toNat + 32)
  else if 0x410 ≤ c.toNat && c.toNat ≤ 0x42F then Char.ofNat (c.toNat + 32)
  else if c.toNat == 0x401 then Char.ofNat 0x451
  else c

/-- Python `str.lower` over a whole string. -/
def lowerStr (l : Str) : Str := l.map lowerChar

/-- Python `str.strip` (no argument): drop leading and trailing whitespace. -/
def pyStrip (l : Str) : Str :=
  ((l.dropWhile pyWS).reverse.dropWhile pyWS).reverse

/-- Numeric value of a digit string, as Python `int` reads it. -/
def digitsToNat (l : Str) : Nat := l.foldl (fun a c => a * 10 + (c.toNat - 48)) 0

/-- Boolean string-prefix test. -/
def isPfx : Str → Str → Bool
  | [], _ => true
  | _ :: _, [] => false
  | a :: as, b :: bs => a == b && isPfx as bs

/-- Boolean substring test (regex search for a literal pattern). -/
def isSub (p : Str) : Str → Bool
  | [] => p.isEmpty
  | c :: cs => isPfx p (c :: cs) || isSub p cs

/-- Final step of `pyFloat`: the number is `sg * (ipv.fp)`, possibly scaled
by a trailing exponent part found in `rest`.  The value is assembled with
integer arithmetic and one `mkRat`. -/
def pyFloatVal (sg : Int) (ipv : Nat) (fp : Str) (rest : Str) : Option ℚ :=
  let num : Int := sg * ((ipv * 10 ^ fp.length + digitsToNat fp : Nat) : Int)
  let den : Nat := 10 ^ fp.length
  match rest with
  | [] => some (mkRat num den)
  | e :: t =>
    if e == 'e' || e == 'E' then
      let es : Bool × Str :=
        match t with
        | '-' :: u => (false, u)
        | '+' :: u => (true, u)
        | _ => (true, t)
      let ed := es.2.takeWhile pyDigit
      let er := es.2.dropWhile pyDigit
      if ed.isEmpty || !er.isEmpty then none
      else if es.1 then some (mkRat (num * 10 ^ digitsToNat ed) den)
      else some (mkRat num (den * 10 ^ digitsToNat ed))
    else none

/-- Python `float(text)` on the decimal notations the page can contain:
optional surrounding whitespace, optional sign, digits with optional fraction
and optional exponent.  `none` models the `ValueError` raised on any other
text; values are the exact rationals the literals denote. -/
def pyFloat (l : Str) : Option ℚ :=
  let s := pyStrip l
  let sg : Int × Str :=
    match s with
    | '-' :: t => (-1, t)
    | '+' :: t => (1, t)
    | _ => (1, s)
  let ip := sg.2.takeWhile pyDigit
  let r1 := sg.2.dropWhile pyDigit
  match r1 with
  | '.' :: r2 =>
    let fp := r2.takeWhile pyDigit
    let r3 := r2.dropWhile pyDigit
    if ip.isEmpty && fp.isEmpty then none
    else pyFloatVal sg.1 (digitsToNat ip) fp r3
  | _ => if ip.isEmpty then none else pyFloatVal sg.1 (digitsToNat ip) [] r1

/-- One event of the parsed markup document, in document order: an element
opening (tag, class list, optional `style` attribute), the matching element
close, or a text node.  The tree shape is recovered by `content`, which
slices out the events strictly between an element opening and its matching
close. -/
inductive Item where
  | opn : Str → List Str → Option Str → Item
  | close : Item
  | txt : Str → Item
deriving DecidableEq

/-- Events of the subtree of an element, given the events that follow its
opening: everything up to the matching close.  The counter `d` is the number
of currently open nested elements. -/
def content : List Item → Nat → List Item
  | [], _ => []
  | Item.close :: _, 0 => []
  | Item.close :: r, d + 1 => Item.close :: content r d
  | Item.opn t c s :: r, d => Item.opn t c s :: content r (d + 1)
  | Item.txt s :: r, d => Item.txt s :: content r d

/-- BeautifulSoup `find_all` filtered by a predicate on element openings: the
content slice of every matching descendant element, in document order. -/
def findContents (p : Item → Bool) : List Item → List (List Item)
  | [] => []
  | Item.opn t cs st :: r =>
    (if p (Item.opn t cs st) then [content r 0] else []) ++ findContents p r
  | _ :: r => findContents p r

/-- BeautifulSoup `find`: content slice of the first matching descendant. -/
def firstContent (p : Item → Bool) (l : List Item) : Option (List Item) :=
  (findContents p l).head?

/-- Text fragments of a subtree, in document order. -/
def textsOf : List Item → List Str
  | [] => []
  | Item.txt s :: r => s :: textsOf r
  | _ :: r => textsOf r

/-- BeautifulSoup `get_text(strip=True)`: every text fragment stripped, then
all of them concatenated. -/
def getTextStrip (l : List Item) : Str := ((textsOf l).map pyStrip).flatten

/-- One attempt of the pattern `\d+\.\d+\s*(лв\.|€)` at the head of the
input; on success, the input minus the matched prefix. -/
def matchPrice (l : Str) : Option Str :=
  let ds := l.takeWhile pyDigit
  let r1 := l.dropWhile pyDigit
  if ds.isEmpty then none else
  match r1 with
  | '.' :: r2 =>
    let ds2 := r2.takeWhile pyDigit
    let r3 := r2.dropWhile pyDigit
    if ds2.isEmpty then none else
    let r4 := r3.dropWhile pyWS
    if isPfx (("лв.").toList) r4 then some (r4.drop 3)
    else if isPfx (("€").toList) r4 then some (r4.drop 1)
    else none
  | _ => none

/-- Python `re.sub(r'\d+\.\d+\s*(лв\.|€)', '', text)`: scan left to right,
removing every non-overlapping match.  The fuel argument bounds the number of
scan steps; since each match consumes at least one character, the input
length is always enough fuel. -/
def subPriceF : Nat → Str → Str
  | 0, l => l
  | _ + 1, [] => []
  | f + 1, c :: cs =>
    match matchPrice (c :: cs) with
    | some r => subPriceF f r
    | none => c :: subPriceF f cs

/-- First cleaning substitution of `clean_product_name`. -/
def subPrice (l : Str) : Str := subPriceF l.length l

/-- One attempt of the case-insensitive pattern `цена\s*-?\s*` at the head of
the input. -/
def matchLabel (l : Str) : Option Str :=
  match l with
  | a :: b :: c :: d :: r =>
    if lowerChar a == 'ц' && lowerChar b == 'е' && lowerChar c == 'н' &&
        lowerChar d == 'а' then
      let r1 := r.dropWhile pyWS
      some (match r1 with
            | '-' :: t => t.dropWhile pyWS
            | _ => r1)
    else none
  | _ => none

/-- Python `re.sub(r'цена\s*-?\s*', '', text, flags=re.IGNORECASE)`, with the
same fuel discipline as `subPriceF`. -/
def subLabelF : Nat → Str → Str
  | 0, l => l
  | _ + 1, [] => []
  | f + 1, c :: cs =>
    match matchLabel (c :: cs) with
    | some r => subLabelF f r
    | none => c :: subLabelF f cs

/-- Second cleaning substitution of `clean_product_name`. -/
def subLabel (l : Str) : Str := subLabelF l.length l

/-- Python `re.sub(r'\s+', ' ', text)`: every maximal whitespace run becomes
a single space, with the same fuel discipline as `subPriceF`. -/
def collapseF : Nat → Str → Str
  | 0, l => l
  | _ + 1, [] => []
  | f + 1, c :: cs =>
    if pyWS c then ' ' :: collapseF f (cs.dropWhile pyWS)
    else c :: collapseF f cs

/-- Whitespace normalization step of `clean_product_name`. -/
def collapseWS (l : Str) : Str := collapseF l.length l

/-- The cleaning pipeline of `clean_product_name`, before its length gate. -/
def cleanedText (t : Str) : Str := pyStrip (collapseWS (subLabel (subPrice t)))

/-- `BillaScraper.clean_product_name`: remove embedded price fragments and
the `цена` label, normalize whitespace, and return the result only when it is
longer than 3 characters (`None` otherwise). -/
def clean_product_name (t : Str) : Option Str :=
  if 3 < (cleanedText t).length then some (cleanedText t) else none

/-- Characters matched by `.` in a Python regex without `DOTALL`: everything
but a newline. -/
def notNL (c : Char) : Bool := !(c == '\n')

/-- Exclusion pattern `^празнувай.*billa`. -/
def patCelebrate (l : Str) : Bool :=
  isPfx (("празнувай").toList) l &&
    isSub (("billa").toList) ((l.drop 9).takeWhile notNL)

/-- Exclusion pattern `^\d+\s*години`. -/
def patYears (l : Str) : Bool :=
  !(l.takeWhile pyDigit).isEmpty &&
    isPfx (("години").toList) ((l.dropWhile pyDigit).dropWhile pyWS)

/-- Exclusion pattern `^валидност:`. -/
def patValid (l : Str) : Bool := isPfx (("валидност:").toList) l

/-- Exclusion pattern `^над\s*\d+\s*продукта`. -/
def patCount (l : Str) : Bool :=
  isPfx (("над").toList) l &&
    (let r1 := (l.drop 3).dropWhile pyWS
     !(r1.takeWhile pyDigit).isEmpty &&
       isPfx (("продукта").toList) ((r1.dropWhile pyDigit).dropWhile pyWS))

/-- Exclusion pattern `^\*.*виж повече`. -/
def patFootnote (l : Str) : Bool :=
  match l with
  | '*' :: r => isSub (("виж повече").toList) (r.takeWhile notNL)
  | _ => false

/-- Exclusion pattern `^\*\*.*номерацията`. -/
def patNumbering (l : Str) : Bool :=
  match l with
  | '*' :: '*' :: r => isSub (("номерацията").toList) (r.takeWhile notNL)
  | _ => false

/-- Exclusion pattern `^мултипак оферта`. -/
def patMultipack (l : Str) : Bool := isPfx (("мултипак оферта").toList) l

/-- Exclusion pattern `www\.billa\.bg` (unanchored). -/
def patDomain (l : Str) : Bool := isSub (("www.billa.bg").toList) l

/-- Exclusion pattern `^предстояща брошура`. -/
def patUpcoming (l : Str) : Bool := isPfx (("предстояща брошура").toList) l

/-- Exclusion pattern `^седмична брошура`. -/
def patWeekly (l : Str) : Bool := isPfx (("седмична брошура").toList) l

/-- Exclusion pattern `^обратно на училище`. -/
def patSeason (l : Str) : Bool := isPfx (("обратно на училище").toList) l

/-- `BillaScraper.is_non_product`: the lowered text is searched with each
exclusion pattern and any hit rejects (the source returns on the first hit;
the disjunction has the same value). -/
def is_non_product (t : Str) : Bool :=
  let l := lowerStr t
  patCelebrate l || patYears l || patValid l || patCount l || patFootnote l ||
    patNumbering l || patMultipack l || patDomain l || patUpcoming l ||
    patWeekly l || patSeason l

/-- One attempt of the pattern `-\s*(\d+)%` at the head of the input,
returning the captured integer. -/
def matchDiscount (l : Str) : Option Nat :=
  match l with
  | '-' :: r =>
    let r1 := r.dropWhile pyWS
    let ds := r1.takeWhile pyDigit
    if ds.isEmpty then none
    else
      match r1.dropWhile pyDigit with
      | '%' :: _ => some (digitsToNat ds)
      | _ => none
  | _ => none

/-- Python `re.search(r'-\s*(\d+)%', text)`: the leftmost match, if any. -/
def searchDiscount : Str → Option Nat
  | [] => none
  | c :: cs =>
    match matchDiscount (c :: cs) with
    | some n => some n
    | none => searchDiscount cs

/-- Price tuple assembled by `extract_prices_from_container`. -/
structure Prices where
  old_price : Option ℚ
  new_price : Option ℚ
  discount : Option Nat
deriving DecidableEq

deriving instance DecidableEq for Except

/-- Tag name `div`. -/
def divTag : Str := ("div").toList

/-- Tag name `span`. -/
def spanTag : Str := ("span").toList

/-- Matches `find_all('div', class_='product')`. -/
def isProductDiv : Item → Bool
  | Item.opn t cs _ => t == divTag && cs.contains (("product").toList)
  | _ => false

/-- Matches `find('div', class_='actualProduct')`. -/
def isActualProductDiv : Item → Bool
  | Item.opn t cs _ => t == divTag && cs.contains (("actualProduct").toList)
  | _ => false

/-- Matches `find('div', class_='discount')`. -/
def isDiscountDiv : Item → Bool
  | Item.opn t cs _ => t == divTag && cs.contains (("discount").toList)
  | _ => false

/-- Matches `find_all('span', class_='price')`. -/
def isPriceSpan : Item → Bool
  | Item.opn t cs _ => t == spanTag && cs.contains (("price").toList)
  | _ => false

/-- Matches `find('div', style=re.compile(pat))`: a div whose style attribute
contains `pat` (every pattern character is literal). -/
def isStyleDiv (pat : Str) : Item → Bool
  | Item.opn t _ st =>
    t == divTag &&
      (match st with
       | some s => isSub pat s
       | none => false)
  | _ => false

/-- Stripped texts of the price spans of the 21%-width (wide) column.  In the
source a missing column and a column without price spans behave identically,
so both are the empty list here. -/
def wideTexts (c : List Item) : List Str :=
  match firstContent (isStyleDiv (("width:21%").toList)) c with
  | none => []
  | some d => (findContents isPriceSpan d).map getTextStrip

/-- Stripped texts of the price spans of the 15%-width (narrow) column. -/
def narrowTexts (c : List Item) : List Str :=
  match firstContent (isStyleDiv (("width:15%").toList)) c with
  | none => []
  | some d => (findContents isPriceSpan d).map getTextStrip

/-- Discount step of `extract_prices_from_container`: text of the discount
sub-element, searched for `-\s*(\d+)%`. -/
def discountOf (c : List Item) : Option Nat :=
  match firstContent isDiscountDiv c with
  | none => none
  | some d => searchDiscount (getTextStrip d)

/-- Whether an extraction result is a success (no exception raised). -/
def exceptIsOk : Except Str Prices → Bool
  | Except.ok _ => true
  | Except.error _ => false

/-- Fallback step of `extract_prices_from_container`: with `new_price` still
unresolved after the wide column, read the first span of the narrow column; a
non-numeric span raises (an `Except.error` carrying the offending text). -/
def narrowStep (old : Option ℚ) (disc : Option Nat) (c : List Item) :
    Except Str Prices :=
  match narrowTexts c with
  | [] => Except.ok (Prices.mk old none disc)
  | u :: _ =>
    match pyFloat u with
    | none => Except.error u
    | some w => Except.ok (Prices.mk old (some w) disc)

/-- `BillaScraper.extract_prices_from_container`: read the discount, then the
wide (21%) column — its first numeric span is `old_price` and, when a second
span exists, that span is `new_price` — and only with `new_price` still
unresolved consult the narrow (15%) column.  A `float` failure on any
consulted span propagates to the caller. -/
def extract_prices_from_container (c : List Item) : Except Str Prices :=
  match wideTexts c with
  | [] => narrowStep none (discountOf c) c
  | t1 :: rest =>
    match pyFloat t1 with
    | none => Except.error t1
    | some v1 =>
      match rest with
      | [] => narrowStep (some v1) (discountOf c) c
      | t2 :: _ =>
        match pyFloat t2 with
        | none => Except.error t2
        | some v2 => Except.ok (Prices.mk (some v1) (some v2) (discountOf c))

/-- Whether the narrow column's first span, if it exists, is numeric. -/
def narrowHeadOk (c : List Item) : Bool :=
  match narrowTexts c with
  | [] => true
  | u :: _ => (pyFloat u).isSome

/-- Success condition of the price scan, stated on the price columns alone:
the discount sub-element does not occur in it. -/
def pricesOk (c : List Item) : Bool :=
  match wideTexts c with
  | [] => narrowHeadOk c
  | t1 :: rest =>
    (pyFloat t1).isSome &&
      (match rest with
       | [] => narrowHeadOk c
       | t2 :: _ => (pyFloat t2).isSome)

/-- Fields of a product record except the extraction timestamp. -/
structure RecordCore where
  name : Str
  old_price : Option ℚ
  new_price : Option ℚ
  currency : Str
  discount_percent : Option Nat
deriving DecidableEq

/-- A finalized product record; `extracted_at` holds the `datetime.now()`
reading taken when the record was appended. -/
structure ProductRecord extends RecordCore where
  extracted_at : Nat
deriving DecidableEq

/-- The constant currency literal `лв.`. -/
def levCurrency : Str := ("лв.").toList

/-- Loop body of `extract_products` for one candidate container: locate the
`actualProduct` sub-element (skip the container without it), clean the name
(skip on a missing or too-short name), skip non-products, extract prices, and
keep the record only when at least one price is present.  `Except.error`
is the exception that the enclosing `try` of the source catches. -/
def processBlock (c : List Item) : Except Str (Option RecordCore) :=
  match firstContent isActualProductDiv c with
  | none => Except.ok none
  | some pd =>
    match clean_product_name (getTextStrip pd) with
    | none => Except.ok none
    | some nm =>
      if nm.isEmpty then Except.ok none
      else if (pyStrip nm).length < 3 then Except.ok none
      else if is_non_product nm then Except.ok none
      else
        match extract_prices_from_container c with
        | Except.error e => Except.error e
        | Except.ok p =>
          if p.old_price.isSome || p.new_price.isSome then
            Except.ok (some (RecordCore.mk nm p.old_price p.new_price
              levCurrency p.discount))
          else Except.ok none

/-- Diagnostic line printed when one block fails. -/
def errorLog (e : Str) : Str := ("Error processing product: ").toList ++ e

/-- The container loop of `extract_products`: a failing block contributes a
diagnostic, every other block contributes its record, if any. -/
def engineList : List (List Item) → List RecordCore × List Str
  | [] => ([], [])
  | c :: cs =>
    match processBlock c with
    | Except.ok none => engineList cs
    | Except.ok (some rc) => (rc :: (engineList cs).1, (engineList cs).2)
    | Except.error e => ((engineList cs).1, errorLog e :: (engineList cs).2)

/-- Record of what one container contributes to the record list. -/
def okOut (c : List Item) : Option RecordCore :=
  match processBlock c with
  | Except.ok o => o
  | Except.error _ => none

/-- Record of what one container contributes to the diagnostics. -/
def errOut (c : List Item) : Option Str :=
  match processBlock c with
  | Except.ok _ => none
  | Except.error e => some (errorLog e)

/-- The timestamp-free part of `extract_products`. -/
def engine (doc : List Item) : List RecordCore × List Str :=
  engineList (findContents isProductDiv doc)

/-- Timestamps attached in construction order: the k-th record appended
receives the k-th `datetime.now()` reading of the clock stream. -/
def attachTimes (ts : Nat → Nat) (cores : List RecordCore) : List ProductRecord :=
  (cores.zip (List.range cores.length)).map
    (fun p => ProductRecord.mk p.1 (ts p.2))

/-- `BillaScraper.extract_products`: records in document order together with
the printed per-block diagnostics, under the clock stream `ts`. -/
def extract_products (ts : Nat → Nat) (doc : List Item) :
    List ProductRecord × List Str :=
  (attachTimes ts (engine doc).1, (engine doc).2)

/-- Event stream of one element. -/
def elemI (t : String) (cls : List String) (st : Option String)
    (kids : List Item) : List Item :=
  Item.opn t.toList (cls.map String.toList) (st.map String.toList) ::
    kids ++ [Item.close]

/-- Event stream of one text node. -/
def textI (s : String) : List Item := [Item.txt s.toList]

/-- A `span.price` element holding the given text. -/
def priceSpan (s : String) : List Item := elemI ("span") [("price")] none (textI s)

/-- A `div.actualProduct` element holding the given name text. -/
def nameDiv (s : String) : List Item :=
  elemI ("div") [("actualProduct")] none (textI s)

/-- A `div.discount` element holding the given text. -/
def discountDivI (s : String) : List Item :=
  elemI ("div") [("discount")] none (textI s)

/-- The wide price column: a div with inline style `width:21%`. -/
def wideDiv (kids : List Item) : List Item :=
  elemI ("div") [] (some ("width:21%")) kids

/-- The narrow price column: a div with inline style `width:15%`. -/
def narrowDiv (kids : List Item) : List Item :=
  elemI ("div") [] (some ("width:15%")) kids

/-- A `div.product` candidate container. -/
def productDiv (kids : List Item) : List Item :=
  elemI ("div") [("product")] none kids

/-- Container content with two numeric spans in the wide column and one in
the narrow column (the reconciliation scenario of the spec). -/
def blockA : List Item :=
  nameDiv ("Прясно мляко 3% 1л") ++
    wideDiv (priceSpan ("12.99") ++ priceSpan ("9.99")) ++
    narrowDiv (priceSpan ("5.49"))

/-- One-product document built from `blockA`. -/
def docA : List Item := productDiv blockA

/-- Container content with a single numeric span in the wide column and one
in the narrow column (the fallback scenario of the spec). -/
def blockB : List Item :=
  nameDiv ("Кашкавал от краве мляко") ++
    wideDiv (priceSpan ("7.50")) ++
    narrowDiv (priceSpan ("6.20"))

/-- Container content whose discount text matches no `-NN%` pattern. -/
def blockG : List Item :=
  nameDiv ("Сирене краве 700г") ++
    discountDivI ("без намаление") ++
    wideDiv (priceSpan ("3.99") ++ priceSpan ("2.99"))

/-- Container content whose discount text reads `-150%`. -/
def block150 : List Item :=
  nameDiv ("Сок ябълка 1л") ++
    discountDivI ("-150%") ++
    wideDiv (priceSpan ("1.00") ++ priceSpan ("0.50"))

/-- Document with an emitted record whose discount is above 100. -/
def doc150 : List Item := productDiv block150

/-- The string `мед`: clean in the sense of C6 (no embedded price fragment,
no label, single-spaced and trimmed) but only 3 characters long. -/
def shortClean : Str := ("мед").toList

/-- Five-container document whose third block carries a non-numeric price
span; every other block is a well-formed product. -/
def doc5 : List Item :=
  productDiv (nameDiv ("Кашкавал Витоша 400г") ++
      wideDiv (priceSpan ("8.00") ++ priceSpan ("6.40"))) ++
    productDiv (nameDiv ("Масло краве 125г") ++
      wideDiv (priceSpan ("4.50") ++ priceSpan ("3.60"))) ++
    productDiv (nameDiv ("Хляб пълнозърнест") ++
      wideDiv (priceSpan ("N/A"))) ++
    productDiv (nameDiv ("Яйца размер М 10бр") ++
      wideDiv (priceSpan ("5.20")) ++ narrowDiv (priceSpan ("4.16"))) ++
    productDiv (nameDiv ("Шунка Пиле 300г") ++
      discountDivI ("-20%") ++
      wideDiv (priceSpan ("8.00") ++ priceSpan ("6.40")))

/-- Identity clock stream. -/
def tsId : Nat → Nat := fun n => n

/-- Constant clock stream at 0. -/
def tsZero : Nat → Nat := fun _ => 0

/-- Constant clock stream at 1. -/
def tsOne : Nat → Nat := fun _ => 1

/-- The record that `docA` produces under `tsId`. -/
def recA : ProductRecord :=
  ProductRecord.mk
    (RecordCore.mk (("Прясно мляко 3% 1л").toList)
      (some (mkRat 1299 100)) (some (mkRat 999 100)) levCurrency none) 0

/-- A successful `clean_product_name` returns the cleaned text, and only when
that text is longer than 3 characters. -/
theorem clean_product_name_some {t nm : Str}
    (h : clean_product_name t = some nm) :
    nm = cleanedText t ∧ 3 < nm.length := by
  unfold clean_product_name at h
  split at h
  · rename_i hlt
    cases h
    exact ⟨rfl, hlt⟩
  · exact Option.noConfusion h

/-- Every record a block contributes has a name longer than 3 characters and
at least one price. -/
theorem processBlock_some {c : List Item} {rc : RecordCore}
    (h : processBlock c = Except.ok (some rc)) :
    3 < rc.name.length ∧ (rc.old_price ≠ none ∨ rc.new_price ≠ none) := by
  unfold processBlock at h
  split at h
  · simp at h
  · rename_i pd hpd
    split at h
    · simp at h
    · rename_i nm hnm
      split at h
      · simp at h
      · split at h
        · simp at h
        · split at h
          · simp at h
          · split at h
            · simp at h
            · rename_i p hp
              split at h
              · rename_i hsome
                simp only [Except.ok.injEq, Option.some.injEq] at h
                subst h
                refine ⟨(clean_product_name_some hnm).2, ?_⟩
                rcases (Bool.or_eq_true _ _) ▸ hsome with h1 | h2
                · exact Or.inl (Option.isSome_iff_ne_none.mp h1)
                · exact Or.inr (Option.isSome_iff_ne_none.mp h2)
              · simp at h

/-- The container loop decomposes per container: each failing container
contributes exactly its diagnostic, each succeeding one its record, if any. -/
theorem engineList_eq (cs : List (List Item)) :
    engineList cs = (cs.filterMap okOut, cs.filterMap errOut) := by
  induction cs with
  | nil => rfl
  | cons c cs ih =>
    cases hc : processBlock c with
    | ok o =>
      cases o with
      | none => simp [engineList, okOut, errOut, hc, ih]
      | some rc => simp [engineList, okOut, errOut, hc, ih]
    | error e => simp [engineList, okOut, errOut, hc, ih]

/-- Every record of a scan comes from some container whose assembly
succeeded with that record. -/
theorem mem_engine {doc : List Item} {rc : RecordCore}
    (h : rc ∈ (engine doc).1) :
    ∃ c, processBlock c = Except.ok (some rc) := by
  unfold engine at h
  rw [engineList_eq] at h
  obtain ⟨c, -, hc⟩ := List.mem_filterMap.mp h
  refine ⟨c, ?_⟩
  unfold okOut at hc
  split at hc
  · rename_i o heq
    exact hc ▸ heq
  · exact Option.noConfusion hc

/-- Dropping the timestamps recovers exactly the clock-free record list. -/
theorem attachTimes_core (ts : Nat → Nat) (cores : List RecordCore) :
    (attachTimes ts cores).map ProductRecord.toRecordCore = cores := by
  unfold attachTimes
  rw [List.map_map]
  have he : (ProductRecord.toRecordCore ∘
      fun p : RecordCore × Nat => ProductRecord.mk p.1 (ts p.2)) = Prod.fst := rfl
  rw [he]
  exact List.map_fst_zip cores (List.range cores.length) (by simp)

/-- Membership transfers from the timestamped records to the clock-free
record list. -/
theorem mem_attachTimes {ts : Nat → Nat} {cores : List RecordCore}
    {r : ProductRecord} (h : r ∈ attachTimes ts cores) :
    r.toRecordCore ∈ cores := by
  have h2 := List.mem_map_of_mem ProductRecord.toRecordCore h
  rwa [attachTimes_core] at h2

/-- A successful price extraction carries exactly the discount read by the
discount step. -/
theorem extract_ok_discount {c : List Item} {p : Prices}
    (h : extract_prices_from_container c = Except.ok p) :
    p.discount = discountOf c := by
  unfold extract_prices_from_container narrowStep at h
  split at h
  · split at h
    · cases h
      rfl
    · split at h
      · exact Except.noConfusion h
      · cases h
        rfl
  · split at h
    · exact Except.noConfusion h
    · split at h
      · split at h
        · cases h
          rfl
        · split at h
          · exact Except.noConfusion h
          · cases h
            rfl
      · split at h
        · exact Except.noConfusion h
        · cases h
          rfl

/-- C1: for every candidate block whose wide (21%-width) column contains two
or more numeric price spans, the price locator returns `old_price` equal to
the first span's value and `new_price` equal to the second span's value; the
narrow (15%-width) column is not consulted — the conclusion holds with no
hypothesis on it, for any narrow-column content. -/
theorem C1_price_reconciliation (c : List Item) (t1 t2 : Str)
    (rest : List Str) (v1 v2 : ℚ) (hw : wideTexts c = t1 :: t2 :: rest)
    (h1 : pyFloat t1 = some v1) (h2 : pyFloat t2 = some v2) :
    extract_prices_from_container c =
      Except.ok (Prices.mk (some v1) (some v2) (discountOf c)) := by
  unfold extract_prices_from_container
  rw [hw]
  dsimp only
  rw [h1]
  dsimp only
  rw [h2]

/-- C1 witness: the spec scenario — wide column `[12.99, 9.99]`, narrow
column `[5.49]` — yields `old_price = 12.99` and `new_price = 9.99`. -/
theorem C1_price_reconciliation_witness :
    extract_prices_from_container blockA =
      Except.ok (Prices.mk (some (mkRat 1299 100)) (some (mkRat 999 100))
        (discountOf blockA)) :=
  C1_price_reconciliation blockA (("12.99").toList) (("9.99").toList) []
    (mkRat 1299 100) (mkRat 999 100) (by decide) (by decide) (by decide)

/-- C2: for every candidate block whose wide (21%-width) column yields
exactly one numeric value, when the narrow (15%-width) column holds at least
one span and its first span is numeric, that value becomes `new_price`. -/
theorem C2_narrow_fallback (c : List Item) (t1 u1 : Str) (us : List Str)
    (v1 w1 : ℚ) (hw : wideTexts c = [t1]) (h1 : pyFloat t1 = some v1)
    (hn : narrowTexts c = u1 :: us) (h2 : pyFloat u1 = some w1) :
    extract_prices_from_container c =
      Except.ok (Prices.mk (some v1) (some w1) (discountOf c)) := by
  unfold extract_prices_from_container narrowStep
  rw [hw]
  dsimp only
  rw [h1]
  dsimp only
  rw [hn]
  dsimp only
  rw [h2]

/-- C2 witness: the spec scenario — wide column `[7.50]`, narrow column
`[6.20]` — yields `old_price = 7.50` and `new_price = 6.20`. -/
theorem C2_narrow_fallback_witness :
    extract_prices_from_container blockB =
      Except.ok (Prices.mk (some (mkRat 750 100)) (some (mkRat 620 100))
        (discountOf blockB)) :=
  C2_narrow_fallback blockB (("7.50").toList) (("6.20").toList) []
    (mkRat 750 100) (mkRat 620 100) (by decide) (by decide) (by decide)
      (by decide)

/-- C3: invariant I1 — for every input document and clock stream, no emitted
record has both `old_price` and `new_price` null. -/
theorem C3_acceptance_invariant (ts : Nat → Nat) (doc : List Item)
    (r : ProductRecord) (h : r ∈ (extract_products ts doc).1) :
    r.old_price ≠ none ∨ r.new_price ≠ none := by
  obtain ⟨c, hc⟩ := mem_engine (mem_attachTimes h)
  exact (processBlock_some hc).2

/-- C3 witness: the record emitted for `docA` satisfies the invariant. -/
theorem C3_acceptance_invariant_witness :
    recA.old_price ≠ none ∨ recA.new_price ≠ none :=
  C3_acceptance_invariant tsId docA recA (by decide)

/-- C4: fault isolation — the scan decomposes container by container, a
failing container contributing exactly one diagnostic and no record while
every other container is processed unaffected; concretely, the five-block
document whose third block carries the non-numeric span `N/A` yields exactly
4 records and exactly 1 diagnostic. -/
theorem C4_fault_isolation :
    (∀ doc : List Item,
        engine doc =
          ((findContents isProductDiv doc).filterMap okOut,
            (findContents isProductDiv doc).filterMap errOut)) ∧
      (extract_products tsId doc5).1.length = 4 ∧
      (extract_products tsId doc5).2.length = 1 :=
  ⟨fun _ => engineList_eq _, by decide, by decide⟩

/-- C5: exclusion completeness — one literal example of every fixed
exclusion category of the spec is rejected (celebratory banner, anniversary
text, validity notice, product counter, the two footnote markers, multi-pack
disclaimer, the site domain, upcoming and weekly brochure headers, seasonal
campaign banner), matching is case-insensitive, and a realistic product name
is kept. -/
theorem C5_exclusion_completeness :
    is_non_product (("Празнувай 25 години BILLA").toList) = true ∧
      is_non_product (("25 години BILLA").toList) = true ∧
      is_non_product (("Валидност: 09.10 - 15.10").toList) = true ∧
      is_non_product (("Над 250 продукта в промоция").toList) = true ∧
      is_non_product (("* Виж повече на страницата").toList) = true ∧
      is_non_product (("** Номерацията на страниците е примерна").toList) = true ∧
      is_non_product (("Мултипак оферта").toList) = true ∧
      is_non_product (("www.billa.bg").toList) = true ∧
      is_non_product (("Предстояща брошура").toList) = true ∧
      is_non_product (("Седмична брошура").toList) = true ∧
      is_non_product (("Обратно на училище").toList) = true ∧
      is_non_product (("ВАЛИДНОСТ: 09.10").toList) = true ∧
      is_non_product (("Прясно мляко 3% 1л").toList) = false := by
  decide

/-- C6 counterexample: the claim fails on a clean string of length 3 — the
normalizer returns `none` for it, not the string unchanged. -/
theorem C6_counterexample :
    subPrice shortClean = shortClean ∧ subLabel shortClean = shortClean ∧
      pyStrip (collapseWS shortClean) = shortClean ∧
      clean_product_name shortClean ≠ some shortClean := by
  decide

/-- C6 (amended): for every already-clean name string — fixed by the price
substitution, fixed by the label substitution, already single-spaced and
trimmed — that is longer than 3 characters, the normalizer returns it
unchanged. -/
theorem C6_idempotence (s : Str) (h1 : subPrice s = s) (h2 : subLabel s = s)
    (h3 : pyStrip (collapseWS s) = s) (h4 : 3 < s.length) :
    clean_product_name s = some s := by
  have hc : cleanedText s = s := by
    unfold cleanedText
    rw [h1, h2, h3]
  unfold clean_product_name
  rw [hc, if_pos h4]

/-- C6 witness: a clean product name is returned unchanged. -/
theorem C6_idempotence_witness :
    clean_product_name (("Прясно мляко").toList) =
      some (("Прясно мляко").toList) :=
  C6_idempotence (("Прясно мляко").toList) (by decide) (by decide)
    (by decide) (by decide)

/-- C7: the normalizer returns `none` whenever the cleaned text is at most 3
characters long, and every emitted record's name is longer than 3 characters
(hence non-empty). -/
theorem C7_name_length :
    (∀ t : Str, (cleanedText t).length ≤ 3 → clean_product_name t = none) ∧
      ∀ (ts : Nat → Nat) (doc : List Item) (r : ProductRecord),
        r ∈ (extract_products ts doc).1 → 3 < r.name.length := by
  constructor
  · intro t h
    unfold clean_product_name
    rw [if_neg (by omega)]
  · intro ts doc r h
    obtain ⟨c, hc⟩ := mem_engine (mem_attachTimes h)
    exact (processBlock_some hc).1

/-- C7 witness: a two-character text is rejected by the normalizer, and the
record emitted for `docA` has a name of length 18 > 3. -/
theorem C7_name_length_witness :
    clean_product_name (("аб").toList) = none ∧ 3 < recA.name.length :=
  ⟨C7_name_length.1 (("аб").toList) (by decide),
    C7_name_length.2 tsId docA recA (by decide)⟩

/-- C8 counterexample: the document `doc150`, whose discount text is
`-150%`, produces an emitted record with `discount_percent = 150`, outside
the claimed range 0–100. -/
theorem C8_counterexample :
    (extract_products tsId doc150).1.map (fun r => r.discount_percent) =
        [some 150] ∧ ¬(150 ≤ 100) := by
  decide

/-- C8 (amended): in every successfully extracted price tuple the discount,
when present, is exactly the nonnegative integer NN of the first `-NN%`
match in the discount sub-element's text; no upper bound of 100 is
enforced. -/
theorem C8_discount_from_pattern (c : List Item) (p : Prices)
    (h : extract_prices_from_container c = Except.ok p) :
    p.discount = discountOf c :=
  extract_ok_discount h

/-- C8 witness: the discount of the `-150%` block is the parsed 150. -/
theorem C8_discount_from_pattern_witness :
    (Prices.mk (some (mkRat 100 100)) (some (mkRat 50 100))
        (some 150)).discount = discountOf block150 :=
  C8_discount_from_pattern block150
    (Prices.mk (some (mkRat 100 100)) (some (mkRat 50 100)) (some 150))
    (by decide)

/-- C9 counterexample: the engine's output is not a pure function of the
document text alone — two runs on `docA` under different clock readings
produce different record sequences (the `extracted_at` fields differ). -/
theorem C9_counterexample :
    extract_products tsZero docA ≠ extract_products tsOne docA := by
  decide

/-- C9 (amended): the engine is deterministic given the document and the
clock — with the timestamps erased, the record sequence and the diagnostics
are identical across runs, whatever clock readings each run observes. -/
theorem C9_determinism (ts1 ts2 : Nat → Nat) (doc : List Item) :
    (extract_products ts1 doc).1.map ProductRecord.toRecordCore =
        (extract_products ts2 doc).1.map ProductRecord.toRecordCore ∧
      (extract_products ts1 doc).2 = (extract_products ts2 doc).2 :=
  ⟨(attachTimes_core ts1 (engine doc).1).trans
    (attachTimes_core ts2 (engine doc).1).symm, rfl⟩

/-- C10: discount parsing is total — whether the price scan succeeds is
determined by the price columns alone (`pricesOk` never looks at the
discount sub-element), and on success a discount text without a `-NN%` match
leaves the discount absent; malformed discount text alone never discards a
block. -/
theorem C10_discount_total (c : List Item) :
    exceptIsOk (extract_prices_from_container c) = pricesOk c ∧
      ∀ p : Prices, extract_prices_from_container c = Except.ok p →
        discountOf c = none → p.discount = none := by
  constructor
  · unfold extract_prices_from_container narrowStep pricesOk narrowHeadOk
    rcases hw : wideTexts c with _ | ⟨t1, rest⟩
    · dsimp only
      rcases hn : narrowTexts c with _ | ⟨u, us⟩
      · rfl
      · dsimp only
        cases hu : pyFloat u <;> rfl
    · dsimp only
      cases h1 : pyFloat t1
      · rfl
      · dsimp only
        rcases rest with _ | ⟨t2, rest2⟩
        · dsimp only
          rcases hn : narrowTexts c with _ | ⟨u, us⟩
          · rfl
          · dsimp only
            cases hu : pyFloat u <;> rfl
        · dsimp only
          cases h2 : pyFloat t2 <;> rfl
  · intro p hp hd
    rw [extract_ok_discount hp, hd]

/-- C10 witness: a block whose discount text `без намаление` matches no
`-NN%` pattern still extracts successfully and carries no discount. -/
theorem C10_discount_total_witness :
    exceptIsOk (extract_prices_from_container blockG) = pricesOk blockG ∧
      (Prices.mk (some (mkRat 399 100)) (some (mkRat 299 100))
          none).discount = none :=
  ⟨(C10_discount_total blockG).1,
    (C10_discount_total blockG).2
      (Prices.mk (some (mkRat 399 100)) (some (mkRat 299 100)) none)
      (by decide) (by decide)⟩
